import Mathlib

/-!
# Verification of the Sleep-Modes test harness

A shallow embedding of `src/Sleep-Modes.ino` (the five-test sequencer) and of
the second program variant embedded in the repository README (the one carrying
the `setDuration` Particle function).  Hardware and vendor APIs (RTC, EEPROM,
pins, the cloud publish channel) are modelled as explicit state and an
environment record of the values the hardware would return during one tick;
every externally visible side effect (publishes, alarm arming, persisted
start-timestamp stores, the suspending calls) is recorded in an `Action`
trace in program order.
-/

namespace SleepModes

/-- `unsigned long` / 4-byte EEPROM slots wrap at 2^32. -/
def W32 : Nat := 2 ^ 32

/-- C unsigned 32-bit subtraction `a - b` (as in `millis() - lastPublish`). -/
def sub32 (a b : Nat) : Nat := (a % W32 + (W32 - b % W32)) % W32

/-- The persisted EEPROM region of the five-test program:
`testNumberAddr 0x00` (1 byte), `testStartTimeAddr 0x01` (4 bytes),
`numberOfTestsPassedAddr 0x05` (1 byte). -/
structure EEPROM where
  testNumber : Nat
  startTime : Nat
  passed : Nat
deriving Repr, DecidableEq

/-- Externally visible side effects of one run, in program order. -/
inductive Action where
  /-- `Particle.publish(topic, msg, PRIVATE)` -/
  | publish (topic msg : String)
  /-- `rtc.setAlarm(secs)` (flag `true`) or `rtc.setAlarm(secs, false)` -/
  | setAlarm (secs : Nat) (flag : Bool)
  /-- `EEPROM.put(testStartTimeAddr, v)` -/
  | storeStartTime (v : Nat)
  /-- `System.sleep(...)` stop-mode sleep (`onPinChange` = wake pin configured) -/
  | sleepStop (onPinChange : Bool) (secs : Nat)
  /-- `System.sleep(SLEEP_MODE_DEEP)` -/
  | sleepDeep
  /-- `digitalWrite(DeepSleepPin, HIGH)` — cuts power via the enable pin -/
  | enablePinHigh
  /-- `delay(ms)` -/
  | delayMs (ms : Nat)
deriving Repr, DecidableEq

/-- The time readings the hardware returns around one call:
`now` is `rtc.getRTCTime()`, `ms` is `millis()`. -/
structure TimeEnv where
  now : Nat
  ms : Nat
deriving Repr, DecidableEq

/-- `const int numberOfTests = 5;` -/
def numberOfTests : Nat := 5

/-- `(testNumber == 4) ? (adjustment = 2 + millis()/1000) : adjustment = 2;` -/
def adjustment (testNumber : Nat) (ms : Nat) : Int :=
  if testNumber = 4 then 2 + (ms / 1000 : Nat) else 2

/-- `elapsedTimeCorrect(bool start)` from `Sleep-Modes.ino`.
On `start`, stores `rtc.getRTCTime()` into the 4-byte EEPROM slot.
Otherwise reads the slot, overwrites it with the sentinel `0L`, computes
`elapsedTime = rtc.getRTCTime() - startTime` and passes iff
`testDurationSeconds >= elapsedTime - adjustment && testDurationSeconds <= elapsedTime`,
publishing the pass/fail result.  `duration` is the compile-time constant
`testDurationSeconds` (the source fixes it at 20, the program is compiled for
one value); `testNumber` is the global the adjustment reads. -/
def elapsedTimeCorrect (duration testNumber : Nat) (env : TimeEnv)
    (e : EEPROM) (start : Bool) : Bool × EEPROM × List Action :=
  let adj : Int := adjustment testNumber env.ms
  if start then
    (false, { e with startTime := env.now % W32 }, [.storeStartTime (env.now % W32)])
  else
    let startTime : Nat := e.startTime
    let e2 : EEPROM := { e with startTime := 0 }
    let elapsedTime : Int := (env.now : Int) - (startTime : Int)
    if (duration : Int) ≥ elapsedTime - adj ∧ (duration : Int) ≤ elapsedTime then
      (true, e2, [.storeStartTime 0,
        .publish "Result" ("Passed elapsed time " ++ toString elapsedTime)])
    else
      (false, e2, [.storeStartTime 0,
        .publish "Result" ("Failed elapsed time " ++ toString elapsedTime)])

/-- C1 (counterexample): with target 20, tolerance 2 (non-deep-sleep case) and a
mocked elapsed of 19 seconds (`now = 119`, stored start `100`), the claimed
pass interval `[target - 2, target]` contains 19, but the code's end
verification returns fail: the claimed iff is false at this input. -/
theorem elapsedTimeCorrect_c1_counterexample :
    ¬ (((elapsedTimeCorrect 20 1 ⟨119, 500⟩ ⟨1, 100, 0⟩ false).1 = true) ↔
        ((20 : Int) - 2 ≤ (119 : Int) - 100 ∧ (119 : Int) - 100 ≤ 20)) := by
  decide

/-- C1 (amended): for every fixed target duration and every elapsed value
produced by a mocked time source, the end operation (`elapsedTimeCorrect`
with `start = false`) returns pass exactly when elapsed lies in the closed
interval `[target, target + tolerance]` (tolerance = 2 seconds, or 2 seconds
plus `millis()/1000` startup overhead in the deep-sleep case `testNumber = 4`):
it fails both when elapsed falls short of the target and when it overshoots
the target by more than the tolerance. -/
theorem elapsedTimeCorrect_end_tolerance (duration testNumber : Nat)
    (env : TimeEnv) (e : EEPROM) :
    (elapsedTimeCorrect duration testNumber env e false).1 = true ↔
      ((duration : Int) ≤ (env.now : Int) - (e.startTime : Int) ∧
        (env.now : Int) - (e.startTime : Int) ≤
          (duration : Int) + adjustment testNumber env.ms) := by
  unfold elapsedTimeCorrect
  simp only [Bool.false_eq_true, if_false]
  split
  · next h => exact ⟨fun _ => by omega, fun _ => rfl⟩
  · next h =>
    refine ⟨fun hc => Bool.noConfusion hc, fun hr => absurd ?_ h⟩
    constructor <;> omega

/-- Witness for the amended C1 tolerance law at a concrete mocked input:
target 20, elapsed exactly 20 in the non-deep-sleep case. -/
theorem elapsedTimeCorrect_end_tolerance_witness :
    (elapsedTimeCorrect 20 1 ⟨120, 500⟩ ⟨1, 100, 0⟩ false).1 = true ↔
      ((20 : Int) ≤ (120 : Int) - (100 : Int) ∧
        (120 : Int) - (100 : Int) ≤ (20 : Int) + adjustment 1 500) :=
  elapsedTimeCorrect_end_tolerance 20 1 ⟨120, 500⟩ ⟨1, 100, 0⟩

/-- The hardware values one sequencer tick observes: the time readings at the
begin and end of the current test's interval, the RTC interrupt flag and wake
pin level after the alarm wait, and the user switch level. -/
structure TestEnv where
  tStart : TimeEnv
  tEnd : TimeEnv
  rtcInterrupt : Bool
  wakePinHigh : Bool
  userSwitchLow : Bool
deriving Repr, DecidableEq

/-- `systemSleepTest()`: publish, begin verifier, stop-mode sleep for the
configured duration, end verifier; returns the end verifier's result. -/
def systemSleepTest (duration testNumber : Nat) (env : TestEnv)
    (e : EEPROM) : Bool × EEPROM × List Action :=
  let b := elapsedTimeCorrect duration testNumber env.tStart e true
  let r := elapsedTimeCorrect duration testNumber env.tEnd b.2.1 false
  (r.1, r.2.1,
    [.publish "Test" "System Stop Mode Sleep"] ++ b.2.2 ++
      [.sleepStop false duration] ++ r.2.2)

/-- `rtcAlarmTest()`: publish, begin verifier, `rtc.setAlarm(10)`, wait for the
wake pin (`waitFor(alarmSounded, 12000)`); pass needs `rtc.getInterrupt()`
AND `digitalRead(wakeUpPin)` both true, and then the end verifier's result;
otherwise publish "Failed - No Interrupt" and return false (note the start
slot is not cleared on that path, exactly as in the source). -/
def rtcAlarmTest (duration testNumber : Nat) (env : TestEnv)
    (e : EEPROM) : Bool × EEPROM × List Action :=
  let b := elapsedTimeCorrect duration testNumber env.tStart e true
  let head := [Action.publish "Test" "RTC Alarm"] ++ b.2.2 ++ [.setAlarm 10 true]
  if env.rtcInterrupt && env.wakePinHigh then
    let r := elapsedTimeCorrect duration testNumber env.tEnd b.2.1 false
    (r.1, r.2.1, head ++ r.2.2)
  else
    (false, b.2.1, head ++ [.publish "Result" "Failed - No Interrupt"])

/-- `systemSleepWakeOnInterruptTest()`: records `rtc.getRTCTime()` in a local,
stop-mode sleeps with wake on the user switch, passes iff
`rtc.getRTCTime() - startTime <= testDurationSeconds` (unsigned arithmetic). -/
def systemSleepWakeOnInterruptTest (duration testNumber : Nat) (env : TestEnv)
    (e : EEPROM) : Bool × EEPROM × List Action :=
  let head := [Action.publish "Test" "System Stop Mode with Wake on Interrupt",
    .publish "Test" "Press User Button to Wake", .sleepStop true duration]
  if sub32 env.tEnd.now env.tStart.now ≤ duration % W32 then
    (true, e, head ++ [.publish "Results" "Passed"])
  else
    (false, e, head ++ [.publish "Results" "Failed"])

/-- `systemDeepSleepRTCWakeTest()`: reads the persisted start slot; if it holds
the sentinel `0L` it publishes, arms the RTC alarm, begins the verifier
(persisting the start time) and issues `System.sleep(SLEEP_MODE_DEEP)`
(the trailing `return 1` is unreachable on hardware); otherwise — the reboot
resumption — it runs only the end verifier and returns its result. -/
def systemDeepSleepRTCWakeTest (duration testNumber : Nat) (env : TestEnv)
    (e : EEPROM) : Bool × EEPROM × List Action :=
  if e.startTime = 0 then
    let b := elapsedTimeCorrect duration testNumber env.tStart e true
    (true, b.2.1,
      [.publish "Test" "System Deep Mode Sleep with RTC Wake",
        .setAlarm duration true] ++ b.2.2 ++ [.sleepDeep])
  else
    elapsedTimeCorrect duration testNumber env.tEnd e false

/-- `powerOffSleepWithRTCWakeTest()`: same arm/resume split, with a 5 s delay,
`rtc.setAlarm(testDurationSeconds, false)` and the enable-pin power cut as the
suspending call. -/
def powerOffSleepWithRTCWakeTest (duration testNumber : Nat) (env : TestEnv)
    (e : EEPROM) : Bool × EEPROM × List Action :=
  if e.startTime = 0 then
    let b := elapsedTimeCorrect duration testNumber env.tStart e true
    (true, b.2.1,
      [.publish "Test" "Power Off with EN pin using RTC", .delayMs 5000,
        .setAlarm duration false] ++ b.2.2 ++ [.enablePinHigh])
  else
    elapsedTimeCorrect duration testNumber env.tEnd e false

/-- The volatile program state of the five-test program together with the
persisted EEPROM region: `uint8_t testNumber`, `int numberOfTestsPassed`,
the `volatile bool watchDogFlag`. -/
structure Device where
  testNumber : Nat
  passed : Nat
  eeprom : EEPROM
  watchDogFlag : Bool
deriving Repr, DecidableEq

/-- The watchdog preamble at the top of `loop()`: publish and clear the flag
when the ISR set it since the last tick. -/
def watchdogPre (d : Device) : Device × List Action :=
  if d.watchDogFlag then
    ({ d with watchDogFlag := false }, [.publish "Watchdog" "Interrupt"])
  else (d, [])

/-- The common epilogue of `case 1`..`case 5` of `loop()`: count a pass,
increment `testNumber` (a `uint8_t`), and write both bytes back to EEPROM. -/
def finishTest (d : Device) (res : Bool × EEPROM × List Action) :
    Device × List Action :=
  let passed := if res.1 then d.passed + 1 else d.passed
  let tn := (d.testNumber + 1) % 256
  ({ testNumber := tn, passed := passed,
     eeprom := { res.2.1 with testNumber := tn, passed := passed % 256 },
     watchDogFlag := d.watchDogFlag }, res.2.2)

/-- One iteration of `loop()`: watchdog preamble, then the `switch (testNumber)`
dispatch.  `case 0` waits for the user switch (no EEPROM write); cases 1–5 run
the matching test and persist index and pass count; the `default` branch, when
`testNumber == 6`, publishes the tally, delays 30 s and resets the in-memory
`testNumber` to 0. -/
def loopTick (duration : Nat) (env : TestEnv) (d0 : Device) :
    Device × List Action :=
  let pre := watchdogPre d0
  let d := pre.1
  let step : Device × List Action :=
    if d.testNumber = 0 then
      (if env.userSwitchLow then { d with testNumber := 1 } else d, [])
    else if d.testNumber = 1 then
      finishTest d (systemSleepTest duration d.testNumber env d.eeprom)
    else if d.testNumber = 2 then
      finishTest d (rtcAlarmTest duration d.testNumber env d.eeprom)
    else if d.testNumber = 3 then
      finishTest d (systemSleepWakeOnInterruptTest duration d.testNumber env d.eeprom)
    else if d.testNumber = 4 then
      finishTest d (systemDeepSleepRTCWakeTest duration d.testNumber env d.eeprom)
    else if d.testNumber = 5 then
      finishTest d (powerOffSleepWithRTCWakeTest duration d.testNumber env d.eeprom)
    else if d.testNumber = 6 then
      ({ d with testNumber := 0 },
        [.publish "Final Result"
            ("Sleep Tests Complete - Passed " ++ toString d.passed ++
              " out of " ++ toString numberOfTests),
          .delayMs 30000])
    else (d, [])
  (step.1, pre.2 ++ step.2)

/-- Actions that arm or re-arm a timed reboot-inducing test: arming the RTC
alarm, persisting a non-zero start timestamp, or issuing a suspending call.
(The end verifier's clearing store of the sentinel `0` is not an arming.) -/
def isArmAction : Action → Bool
  | .setAlarm _ _ => true
  | .storeStartTime v => v != 0
  | .sleepDeep => true
  | .enablePinHigh => true
  | _ => false

/-- A concrete tick environment for witnesses: RTC reads 1000 s at begin and
1020 s at end, both wake signals present, user switch not pressed. -/
def envBoth : TestEnv := ⟨⟨1000, 400⟩, ⟨1020, 900⟩, true, true, false⟩

/-- A concrete tick environment where only the wake pin is high and the RTC
interrupt flag is not set. -/
def envOnlyPin : TestEnv := ⟨⟨1000, 400⟩, ⟨1020, 900⟩, false, true, false⟩

/-- A concrete resumption device state: index 4 with a non-zero persisted
start timestamp. -/
def deviceResume4 : Device := ⟨4, 0, ⟨4, 123, 0⟩, false⟩

/-- The begin call of the verifier: stores `now` and emits only that store. -/
theorem elapsedBegin (duration testNumber : Nat) (env : TimeEnv) (e : EEPROM) :
    elapsedTimeCorrect duration testNumber env e true =
      (false, { e with startTime := env.now % W32 },
        [.storeStartTime (env.now % W32)]) := rfl

/-- The end call of the verifier always emits exactly the sentinel store
followed by one result publish. -/
theorem elapsedEnd_trace (duration testNumber : Nat) (env : TimeEnv)
    (e : EEPROM) :
    ∃ s, (elapsedTimeCorrect duration testNumber env e false).2.2 =
      [Action.storeStartTime 0, Action.publish "Result" s] := by
  unfold elapsedTimeCorrect
  simp only [Bool.false_eq_true, if_false]
  split
  · exact ⟨_, rfl⟩
  · exact ⟨_, rfl⟩

/-- C2: for each arm-then-suspend test (deep sleep at index 4, power off at
index 5), a sequencer tick entered with a non-zero persisted start timestamp
takes the resume branch: its action trace is the watchdog preamble followed by
exactly the end verification's actions, and it contains no alarm arming, no
non-zero start-timestamp store, and no suspending call. -/
theorem resume_branch_no_rearm (duration : Nat) (env : TestEnv) (d : Device)
    (h : d.testNumber = 4 ∨ d.testNumber = 5) (hs : d.eeprom.startTime ≠ 0) :
    (loopTick duration env d).2 =
      (watchdogPre d).2 ++
        (elapsedTimeCorrect duration d.testNumber env.tEnd d.eeprom false).2.2 ∧
    ∀ a ∈ (loopTick duration env d).2, isArmAction a = false := by
  obtain ⟨tn, p, e, w⟩ := d
  simp only at hs
  obtain ⟨s, hse⟩ := elapsedEnd_trace duration tn env.tEnd e
  rcases h with h | h <;> subst h <;> cases w <;>
    simp_all [loopTick, watchdogPre, finishTest, systemDeepSleepRTCWakeTest,
      powerOffSleepWithRTCWakeTest, isArmAction]

/-- C4: in the arm branch of both arm-then-suspend tests (entered with the
sentinel `0` persisted and a non-zero RTC reading), the store of the non-zero
start timestamp appears in the action trace strictly before the suspending
call, and at the moment the suspend executes the persisted start slot holds
that non-zero timestamp, never the sentinel. -/
theorem arm_stores_before_suspend (duration : Nat) (env : TestEnv) (e : EEPROM)
    (h0 : e.startTime = 0) (hn : env.tStart.now % W32 ≠ 0) :
    ((systemDeepSleepRTCWakeTest duration 4 env e).2.2 =
        [.publish "Test" "System Deep Mode Sleep with RTC Wake",
          .setAlarm duration true, .storeStartTime (env.tStart.now % W32),
          .sleepDeep] ∧
      (systemDeepSleepRTCWakeTest duration 4 env e).2.1.startTime ≠ 0 ∧
      ∃ i j, i < j ∧
        (systemDeepSleepRTCWakeTest duration 4 env e).2.2.get? i =
          some (.storeStartTime (env.tStart.now % W32)) ∧
        (systemDeepSleepRTCWakeTest duration 4 env e).2.2.get? j =
          some .sleepDeep) ∧
    ((powerOffSleepWithRTCWakeTest duration 5 env e).2.2 =
        [.publish "Test" "Power Off with EN pin using RTC", .delayMs 5000,
          .setAlarm duration false, .storeStartTime (env.tStart.now % W32),
          .enablePinHigh] ∧
      (powerOffSleepWithRTCWakeTest duration 5 env e).2.1.startTime ≠ 0 ∧
      ∃ i j, i < j ∧
        (powerOffSleepWithRTCWakeTest duration 5 env e).2.2.get? i =
          some (.storeStartTime (env.tStart.now % W32)) ∧
        (powerOffSleepWithRTCWakeTest duration 5 env e).2.2.get? j =
          some .enablePinHigh) := by
  simp only [systemDeepSleepRTCWakeTest, powerOffSleepWithRTCWakeTest, h0,
    if_pos, elapsedBegin]
  refine ⟨⟨rfl, hn, 2, 3, by omega, rfl, rfl⟩, rfl, hn, 3, 4, by omega, rfl, rfl⟩

/-- C6: the RTC-alarm test fails whenever at most one of the alarm-fired flag
and the wake-pin level is observed true; it returns pass only when both are
true, and then its result is exactly the elapsed-time end check's result. -/
theorem rtcAlarmTest_dual_condition (duration testNumber : Nat) (env : TestEnv)
    (e : EEPROM) :
    ((env.rtcInterrupt = false ∨ env.wakePinHigh = false) →
      (rtcAlarmTest duration testNumber env e).1 = false) ∧
    ((rtcAlarmTest duration testNumber env e).1 = true →
      env.rtcInterrupt = true ∧ env.wakePinHigh = true) ∧
    (env.rtcInterrupt = true → env.wakePinHigh = true →
      (rtcAlarmTest duration testNumber env e).1 =
        (elapsedTimeCorrect duration testNumber env.tEnd
          { e with startTime := env.tStart.now % W32 } false).1) := by
  obtain ⟨ts, te, ri, wp, us⟩ := env
  cases ri <;> cases wp <;>
    simp [rtcAlarmTest, elapsedBegin]

/-- C3 (counterexample): from Reporting state (index 6) with pass count 3 and
EEPROM `⟨6, 77, 3⟩`, the tick leaves the in-memory pass count at 3 and the
persisted region untouched — the claimed reset-to-0 of the pass count and the
claimed persisting of the reset values do not happen. -/
theorem reporting_tick_counterexample :
    (loopTick 20 envBoth ⟨6, 3, ⟨6, 77, 3⟩, false⟩).1.passed ≠ 0 ∧
    (loopTick 20 envBoth ⟨6, 3, ⟨6, 77, 3⟩, false⟩).1.eeprom.testNumber ≠ 0 ∧
    (loopTick 20 envBoth ⟨6, 3, ⟨6, 77, 3⟩, false⟩).1.eeprom.passed ≠ 0 := by
  decide

/-- C3 (amended): when the current test index is 6, the next tick publishes the
tally containing exactly the accumulated pass count and `numberOfTests`,
delays 30 s, and resets only the in-memory test index to 0; the pass count is
left unchanged and nothing is written back to the persistent region. -/
theorem reporting_tick (duration : Nat) (env : TestEnv) (d : Device)
    (h : d.testNumber = 6) :
    loopTick duration env d =
      ({ d with testNumber := 0, watchDogFlag := false },
        (watchdogPre d).2 ++
          [.publish "Final Result"
              ("Sleep Tests Complete - Passed " ++ toString d.passed ++
                " out of " ++ toString numberOfTests),
            .delayMs 30000]) := by
  obtain ⟨tn, p, e, w⟩ := d
  simp only at h
  subst h
  cases w <;> rfl

/-- C10: in the Idle state (index 0) the sequencer advances to test 1 exactly
in a tick where the user switch reads LOW; in any other Idle tick the test
index, the pass count and the persisted region are all unchanged (only the
volatile watchdog flag may be cleared), so after Reporting the suite waits for
a user-switch press instead of restarting. -/
theorem idle_waits_for_switch (duration : Nat) (env : TestEnv) (d : Device)
    (h : d.testNumber = 0) :
    (env.userSwitchLow = false →
      loopTick duration env d =
        ({ d with watchDogFlag := false }, (watchdogPre d).2)) ∧
    (env.userSwitchLow = true →
      loopTick duration env d =
        ({ d with testNumber := 1, watchDogFlag := false },
          (watchdogPre d).2)) ∧
    ((loopTick duration env d).1.testNumber = 1 ↔ env.userSwitchLow = true) := by
  obtain ⟨tn, p, e, w⟩ := d
  simp only at h
  subst h
  obtain ⟨ts, te, ri, wp, us⟩ := env
  cases w <;> cases us <;> simp [loopTick, watchdogPre]

/-- Witness for C2 at the concrete resumption state `deviceResume4`. -/
theorem resume_branch_no_rearm_witness :
    (loopTick 20 envBoth deviceResume4).2 =
      (watchdogPre deviceResume4).2 ++
        (elapsedTimeCorrect 20 deviceResume4.testNumber envBoth.tEnd
          deviceResume4.eeprom false).2.2 ∧
    ∀ a ∈ (loopTick 20 envBoth deviceResume4).2, isArmAction a = false :=
  resume_branch_no_rearm 20 envBoth deviceResume4 (Or.inl rfl) (by decide)

/-- An EEPROM region holding the sentinel `0` start timestamp at index 4. -/
def eepromArmed : EEPROM := ⟨4, 0, 0⟩

/-- Witness for C4 at the concrete armed state `eepromArmed` and environment
`envBoth`. -/
theorem arm_stores_before_suspend_witness :
    ((systemDeepSleepRTCWakeTest 20 4 envBoth eepromArmed).2.2 =
        [.publish "Test" "System Deep Mode Sleep with RTC Wake",
          .setAlarm 20 true, .storeStartTime (envBoth.tStart.now % W32),
          .sleepDeep] ∧
      (systemDeepSleepRTCWakeTest 20 4 envBoth eepromArmed).2.1.startTime ≠ 0 ∧
      ∃ i j, i < j ∧
        (systemDeepSleepRTCWakeTest 20 4 envBoth eepromArmed).2.2.get? i =
          some (.storeStartTime (envBoth.tStart.now % W32)) ∧
        (systemDeepSleepRTCWakeTest 20 4 envBoth eepromArmed).2.2.get? j =
          some .sleepDeep) ∧
    ((powerOffSleepWithRTCWakeTest 20 5 envBoth eepromArmed).2.2 =
        [.publish "Test" "Power Off with EN pin using RTC", .delayMs 5000,
          .setAlarm 20 false, .storeStartTime (envBoth.tStart.now % W32),
          .enablePinHigh] ∧
      (powerOffSleepWithRTCWakeTest 20 5 envBoth eepromArmed).2.1.startTime ≠ 0 ∧
      ∃ i j, i < j ∧
        (powerOffSleepWithRTCWakeTest 20 5 envBoth eepromArmed).2.2.get? i =
          some (.storeStartTime (envBoth.tStart.now % W32)) ∧
        (powerOffSleepWithRTCWakeTest 20 5 envBoth eepromArmed).2.2.get? j =
          some .enablePinHigh) :=
  arm_stores_before_suspend 20 envBoth eepromArmed rfl (by decide)

/-- Witness for C6: with the RTC interrupt flag false and only the wake pin
high, the RTC-alarm test fails. -/
theorem rtcAlarmTest_dual_condition_witness :
    (rtcAlarmTest 20 2 envOnlyPin eepromArmed).1 = false :=
  (rtcAlarmTest_dual_condition 20 2 envOnlyPin eepromArmed).1 (Or.inl rfl)

/-- The Reporting-state device used by the C3 witness. -/
def deviceReport6 : Device := ⟨6, 3, ⟨6, 77, 3⟩, false⟩

/-- Witness for C3 (amended) at the concrete Reporting state. -/
theorem reporting_tick_witness :
    loopTick 20 envBoth deviceReport6 =
      ({ deviceReport6 with testNumber := 0, watchDogFlag := false },
        (watchdogPre deviceReport6).2 ++
          [.publish "Final Result"
              ("Sleep Tests Complete - Passed " ++ toString deviceReport6.passed ++
                " out of " ++ toString numberOfTests),
            .delayMs 30000]) :=
  reporting_tick 20 envBoth deviceReport6 rfl

/-- An Idle-state device with a pending watchdog flag. -/
def deviceIdle : Device := ⟨0, 2, ⟨0, 0, 2⟩, true⟩

/-- Witness for C10: with the user switch not LOW, the Idle tick changes
nothing but the volatile watchdog flag. -/
theorem idle_waits_for_switch_witness :
    loopTick 20 envBoth deviceIdle =
      ({ deviceIdle with watchDogFlag := false }, (watchdogPre deviceIdle).2) :=
  (idle_waits_for_switch 20 envBoth deviceIdle rfl).1 rfl

/-- The bounds check `setup()` applies to the two bytes loaded from EEPROM:
`if (testNumber < 0 || testNumber > 5) testNumber = 0;` and
`if (numberOfTestsPassed < 0 || numberOfTestsPassed > numberOfTests)
numberOfTestsPassed = 0;` (each load is `EEPROM.read`, one byte). -/
def loadBoundsCheck (storedIndex storedPass : Int) : Int × Int :=
  let tn := if storedIndex < 0 ∨ storedIndex > 5 then 0 else storedIndex
  let pc := if storedPass < 0 ∨ storedPass > (numberOfTests : Int) then 0
    else storedPass
  (tn, pc)

/-- C7: for every byte value loaded from EEPROM at boot, an out-of-range test
index (negative or greater than `numberOfTests` = 5) initializes the in-memory
index to 0, and likewise an out-of-range loaded pass count becomes 0. -/
theorem setup_clamp (bIdx bPass : Int)
    (hIdx : 0 ≤ bIdx ∧ bIdx ≤ 255) (hPass : 0 ≤ bPass ∧ bPass ≤ 255) :
    ((bIdx < 0 ∨ 5 < bIdx) → (loadBoundsCheck bIdx bPass).1 = 0) ∧
    ((bPass < 0 ∨ (numberOfTests : Int) < bPass) →
      (loadBoundsCheck bIdx bPass).2 = 0) := by
  constructor <;> intro h <;> simp only [loadBoundsCheck] <;> rw [if_pos h]

/-- Witness for C7: the byte values 200 and 77 are both clamped to 0. -/
theorem setup_clamp_witness :
    (loadBoundsCheck 200 77).1 = 0 ∧ (loadBoundsCheck 200 77).2 = 0 :=
  ⟨(setup_clamp 200 77 (by decide) (by decide)).1 (Or.inr (by decide)),
    (setup_clamp 200 77 (by decide) (by decide)).2 (Or.inr (by decide))⟩

/-! ## The second program variant (embedded in the README): `setDuration` -/

/-- The duration state of the second program variant: the in-memory
`unsigned long testDurationSeconds` and the 4-byte EEPROM slot at
`testDurationSecondsAddr 0x0A`. -/
structure DurState where
  testDurationSeconds : Nat
  eepromDuration : Nat
deriving Repr, DecidableEq

/-- The whitespace characters `strtol` skips (C `isspace`). -/
def isSpaceChar (c : Char) : Bool :=
  c = ' ' || c = '\t' || c = '\n' || c = '\r' || c = '\x0b' || c = '\x0c'

/-- Skip leading whitespace. -/
def dropSpaces : List Char → List Char
  | [] => []
  | c :: cs => if isSpaceChar c then dropSpaces cs else c :: cs

/-- Consume an optional sign character; `true` means negative. -/
def splitSign : List Char → Bool × List Char
  | '-' :: cs => (true, cs)
  | '+' :: cs => (false, cs)
  | cs => (false, cs)

/-- Value of a run of decimal digits. -/
def digitsToNat (ds : List Char) : Nat :=
  ds.foldl (fun a c => a * 10 + (c.toNat - 48)) 0

/-- `strtol(command, &pEND, 10)`: skip leading whitespace and an optional
sign, then read the longest run of decimal digits; a string with no leading
digits parses to 0. -/
def strtolModel (s : String) : Int :=
  let cs := dropSpaces s.toList
  let sgn := splitSign cs
  let v : Nat := digitsToNat (sgn.2.takeWhile (fun c => c.isDigit))
  if sgn.1 then -(v : Int) else (v : Int)

/-- `setDuration(String command)` from the README variant: parse with
`strtol`; reject values outside `[0, 3600]` with result 0 and no state change;
otherwise set `testDurationSeconds`, `EEPROM.put` it, publish the
confirmation, delay 1 s and return 1. -/
def setDuration (command : String) (st : DurState) :
    Int × DurState × List Action :=
  let tempTime : Int := strtolModel command
  if tempTime < 0 ∨ tempTime > 3600 then (0, st, [])
  else
    (1, ⟨tempTime.toNat, tempTime.toNat⟩,
      [.publish "Test Duration"
          ("Test duration set to " ++ toString tempTime.toNat),
        .delayMs 1000])

/-- C5: a parsed value outside `[0, 3600]` makes `setDuration` return the
failure code 0 and leave both the in-memory and the persisted duration
unchanged (no notification); a parsed value inside `[0, 3600]`, boundaries
included, is stored in memory, persisted, confirmed by a publish, and the
call returns the success code 1. -/
theorem setDuration_bounds (command : String) (st : DurState) :
    ((strtolModel command < 0 ∨ 3600 < strtolModel command) →
      setDuration command st = (0, st, [])) ∧
    (0 ≤ strtolModel command → strtolModel command ≤ 3600 →
      setDuration command st =
        (1, ⟨(strtolModel command).toNat, (strtolModel command).toNat⟩,
          [.publish "Test Duration"
              ("Test duration set to " ++ toString (strtolModel command).toNat),
            .delayMs 1000])) := by
  constructor
  · intro h
    simp only [setDuration]
    rw [if_pos h]
  · intro h1 h2
    simp only [setDuration]
    rw [if_neg (by omega)]

/-- Witness for C5: `"3601"` is rejected with the state unchanged, `"3600"`
is accepted, stored, persisted and confirmed. -/
theorem setDuration_bounds_witness :
    setDuration "3601" ⟨60, 60⟩ = (0, ⟨60, 60⟩, []) ∧
    setDuration "3600" ⟨60, 60⟩ =
      (1, ⟨(strtolModel "3600").toNat, (strtolModel "3600").toNat⟩,
        [.publish "Test Duration"
            ("Test duration set to " ++ toString (strtolModel "3600").toNat),
          .delayMs 1000]) :=
  ⟨(setDuration_bounds "3601" ⟨60, 60⟩).1 (Or.inr (by decide)),
    (setDuration_bounds "3600" ⟨60, 60⟩).2 (by decide) (by decide)⟩

/-- C9: an input whose initial characters (after whitespace and an optional
sign) form no digits parses via `strtol` to 0, which passes the range check:
`setDuration` then succeeds, setting and persisting the duration to 0,
publishing the confirmation and returning 1 — non-numeric input is not
rejected and does not leave the state unchanged. -/
theorem setDuration_nonNumeric (command : String) (st : DurState)
    (h : (splitSign (dropSpaces command.toList)).2.takeWhile
        (fun c => c.isDigit) = []) :
    strtolModel command = 0 ∧
    setDuration command st =
      (1, ⟨0, 0⟩,
        [.publish "Test Duration" "Test duration set to 0", .delayMs 1000]) := by
  have hz : strtolModel command = 0 := by
    simp only [strtolModel, h, digitsToNat, List.foldl]
    split <;> simp
  refine ⟨hz, ?_⟩
  simp only [setDuration, hz]
  norm_num
  rfl

/-- Witness for C9: the purely alphabetic input `"abc"` succeeds and sets the
duration to 0. -/
theorem setDuration_nonNumeric_witness :
    strtolModel "abc" = 0 ∧
    setDuration "abc" ⟨60, 60⟩ =
      (1, ⟨0, 0⟩,
        [.publish "Test Duration" "Test duration set to 0", .delayMs 1000]) :=
  setDuration_nonNumeric "abc" ⟨60, 60⟩ (by decide)

/-! ## The publish rate limiter -/

/-- `meterParticlePublish()`: admits a publish iff at least 1000 ms of the
wrapping unsigned 32-bit `millis()` clock passed since the last admitted one
(`millis() - lastPublish >= 1000`), updating the static `lastPublish` on
admission.  The static starts at 0. -/
def meterParticlePublish (lastPublish now : Nat) : Bool × Nat :=
  if 1000 ≤ sub32 now lastPublish then (true, now % W32) else (false, lastPublish)

/-- Fold the limiter over the `millis()` readings of successive call attempts
(all call sites share the single static state), collecting the admitted call
times. -/
def meterRun (lastPublish : Nat) : List Nat → List Nat
  | [] => []
  | t :: ts =>
    let s := meterParticlePublish lastPublish t
    if s.1 then t :: meterRun s.2 ts else meterRun s.2 ts

/-- Nondecreasing call times, all at or after `lo`. -/
def monoFromB (lo : Nat) : List Nat → Bool
  | [] => true
  | t :: ts => decide (lo ≤ t) && monoFromB t ts

theorem sub32_eq_sub (a b : Nat) (hb : b ≤ a) (ha : a < W32) :
    sub32 a b = a - b := by
  have hb' : b < W32 := lt_of_le_of_lt hb ha
  unfold sub32
  rw [Nat.mod_eq_of_lt ha, Nat.mod_eq_of_lt hb']
  have h1 : a + (W32 - b) = (a - b) + W32 := by omega
  rw [h1, Nat.add_mod_right, Nat.mod_eq_of_lt (by omega)]

theorem monoFromB_anti (a b : Nat) (ts : List Nat) (hab : a ≤ b)
    (h : monoFromB b ts = true) : monoFromB a ts = true := by
  cases ts with
  | nil => rfl
  | cons t ts =>
    simp only [monoFromB, Bool.and_eq_true, decide_eq_true_eq] at h ⊢
    exact ⟨hab.trans h.1, h.2⟩

theorem meterRun_cons (lp t : Nat) (ts : List Nat) :
    meterRun lp (t :: ts) =
      if 1000 ≤ sub32 t lp then t :: meterRun (t % W32) ts
      else meterRun lp ts := by
  by_cases h : 1000 ≤ sub32 t lp <;>
    simp [meterRun, meterParticlePublish, h]

/-- Key invariant: starting from an admitted timestamp `lp`, every admitted
call consumes at least 1000 ms of the span up to `hi`. -/
theorem meterRun_mul_le (ts : List Nat) : ∀ lp hi, monoFromB lp ts = true →
    ts.all (fun t => decide (t ≤ hi)) = true → hi < W32 →
    1000 * (meterRun lp ts).length ≤ hi - lp := by
  induction ts with
  | nil => intro lp hi _ _ _; simp [meterRun]
  | cons t ts ih =>
    intro lp hi hmono hall hW
    simp only [monoFromB, Bool.and_eq_true, decide_eq_true_eq] at hmono
    simp only [List.all_cons, Bool.and_eq_true, decide_eq_true_eq] at hall
    have ht : t < W32 := lt_of_le_of_lt hall.1 hW
    have hsub : sub32 t lp = t - lp := sub32_eq_sub t lp hmono.1 ht
    rw [meterRun_cons, hsub]
    by_cases h : 1000 ≤ t - lp
    · rw [if_pos h, Nat.mod_eq_of_lt ht]
      have hrec := ih t hi hmono.2 hall.2 hW
      simp only [List.length_cons]
      omega
    · rw [if_neg h]
      exact ih lp hi (monoFromB_anti lp t ts hmono.1 hmono.2) hall.2 hW

/-- Every admitted time is at least 1000 ms after the initial `lastPublish`. -/
theorem meterRun_mem_lb (ts : List Nat) : ∀ lp hi, monoFromB lp ts = true →
    ts.all (fun t => decide (t ≤ hi)) = true → hi < W32 →
    ∀ x ∈ meterRun lp ts, lp + 1000 ≤ x := by
  induction ts with
  | nil => intro lp hi _ _ _ x hx; simp [meterRun] at hx
  | cons t ts ih =>
    intro lp hi hmono hall hW x hx
    simp only [monoFromB, Bool.and_eq_true, decide_eq_true_eq] at hmono
    simp only [List.all_cons, Bool.and_eq_true, decide_eq_true_eq] at hall
    have ht : t < W32 := lt_of_le_of_lt hall.1 hW
    have hsub : sub32 t lp = t - lp := sub32_eq_sub t lp hmono.1 ht
    rw [meterRun_cons, hsub] at hx
    by_cases h : 1000 ≤ t - lp
    · rw [if_pos h, Nat.mod_eq_of_lt ht] at hx
      rcases List.mem_cons.mp hx with hx | hx
      · omega
      · have := ih t hi hmono.2 hall.2 hW x hx
        omega
    · rw [if_neg h] at hx
      exact ih lp hi (monoFromB_anti lp t ts hmono.1 hmono.2) hall.2 hW x hx

/-- Consecutive admitted emissions are at least 1000 ms apart. -/
theorem meterRun_chain (ts : List Nat) : ∀ lp hi, monoFromB lp ts = true →
    ts.all (fun t => decide (t ≤ hi)) = true → hi < W32 →
    List.Chain' (fun a b => a + 1000 ≤ b) (meterRun lp ts) := by
  induction ts with
  | nil => intro lp hi _ _ _; simp [meterRun]
  | cons t ts ih =>
    intro lp hi hmono hall hW
    simp only [monoFromB, Bool.and_eq_true, decide_eq_true_eq] at hmono
    simp only [List.all_cons, Bool.and_eq_true, decide_eq_true_eq] at hall
    have ht : t < W32 := lt_of_le_of_lt hall.1 hW
    have hsub : sub32 t lp = t - lp := sub32_eq_sub t lp hmono.1 ht
    rw [meterRun_cons, hsub]
    by_cases h : 1000 ≤ t - lp
    · rw [if_pos h, Nat.mod_eq_of_lt ht]
      refine List.chain'_cons'.mpr ⟨?_, ih t hi hmono.2 hall.2 hW⟩
      intro y hy
      exact meterRun_mem_lb ts t hi hmono.2 hall.2 hW y
        (List.mem_of_mem_head? hy)
    · rw [if_neg h]
      exact ih lp hi (monoFromB_anti lp t ts hmono.1 hmono.2) hall.2 hW

/-- From an arbitrary limiter state, at most one admission can precede the
1000 ms cadence within the `[lo, hi]` call window. -/
theorem meterRun_count (ts : List Nat) : ∀ lp lo hi, monoFromB lo ts = true →
    ts.all (fun t => decide (t ≤ hi)) = true → hi < W32 →
    (meterRun lp ts).length ≤ (hi - lo) / 1000 + 1 := by
  induction ts with
  | nil => intro lp lo hi _ _ _; simp [meterRun]
  | cons t ts ih =>
    intro lp lo hi hmono hall hW
    simp only [monoFromB, Bool.and_eq_true, decide_eq_true_eq] at hmono
    simp only [List.all_cons, Bool.and_eq_true, decide_eq_true_eq] at hall
    have ht : t < W32 := lt_of_le_of_lt hall.1 hW
    rw [meterRun_cons]
    by_cases h : 1000 ≤ sub32 t lp
    · rw [if_pos h, Nat.mod_eq_of_lt ht]
      have hmul := meterRun_mul_le ts t hi hmono.2 hall.2 hW
      have hlen : (meterRun t ts).length ≤ (hi - lo) / 1000 := by
        rw [Nat.le_div_iff_mul_le (by omega)]
        omega
      simp only [List.length_cons]
      omega
    · rw [if_neg h]
      refine le_trans (ih lp t hi hmono.2 hall.2 hW) ?_
      have h1 : hi - t ≤ hi - lo := by omega
      have h2 := Nat.div_le_div_right (c := 1000) h1
      omega

/-- C8: over any nondecreasing sequence of `millis()` readings in a window
`[lo, hi]` that avoids the 32-bit wrap, the limiter (started from its static
initial state 0) never admits two emissions less than 1000 ms apart, and the
number of admitted emissions is at most `(hi - lo) / 1000 + 1` — N attempts
within fewer than N seconds yield at most `floor(elapsed_seconds) + 1`
emissions, across all call sites sharing the single limiter state. -/
theorem meterParticlePublish_rate_limit (ts : List Nat) (lo hi : Nat)
    (hmono : monoFromB lo ts = true)
    (hall : ts.all (fun t => decide (t ≤ hi)) = true) (hW : hi < W32) :
    List.Chain' (fun a b => a + 1000 ≤ b) (meterRun 0 ts) ∧
    (meterRun 0 ts).length ≤ (hi - lo) / 1000 + 1 :=
  ⟨meterRun_chain ts 0 hi (monoFromB_anti 0 lo ts (Nat.zero_le lo) hmono)
      hall hW,
    meterRun_count ts 0 lo hi hmono hall hW⟩

/-- Witness for C8: five attempts at 0, 500, 1500, 1700 and 2600 ms admit
only the 1000 ms-spaced subsequence, within the bound `2600 / 1000 + 1`. -/
theorem meterParticlePublish_rate_limit_witness :
    List.Chain' (fun a b => a + 1000 ≤ b)
      (meterRun 0 [0, 500, 1500, 1700, 2600]) ∧
    (meterRun 0 [0, 500, 1500, 1700, 2600]).length ≤ (2600 - 0) / 1000 + 1 :=
  meterParticlePublish_rate_limit [0, 500, 1500, 1700, 2600] 0 2600
    (by decide) (by decide) (by decide)

end SleepModes
